import Mathlib

set_option linter.unusedVariables false

/-
  Verification of the manatee PostgresMgr (src/lib/postgresMgr.js).

  This file gives a shallow embedding of the parts of the manager relevant
  to the checked properties:

  * the topology data model and the `reconfigure` entry point with its
    `transitioning` / `running` gates (postgresMgr.js lines 608-789),
  * the `_reconfigure` classification logic (lines 879-945), including the
    `self._pgconfig` property read on line 909 (note the lower-case `c`:
    that property is never assigned anywhere in the file, so in JavaScript
    it is always `undefined`),
  * the `_updateStandby` step sequence (lines 1108-1173),
  * the `_stop` signal-escalation ladder (lines 1426-1483), with time
    modelled in milliseconds,
  * the `_standby` restore-with-rollback pipeline (lines 1279-1402), with
    each fallible step's outcome injected as an environment,
  * the query serializer `_pgQueryKick` / `_pgQueryFini` / `_queryDb`
    (lines 1917-2024), driven by an explicit event trace,
  * the replication catch-up monitor `_checkRepl` / `_checkReplStatus`
    (lines 2153-2315).  The external `pg-lsn` module is modelled
    abstractly: a log position carries a well-formedness flag (what
    `xlogValidate` checks) and a (segment, offset) magnitude (what
    `xlogCompare` orders).
-/

/-! ## Topology data model -/

/-- The role field of a topology command: 'primary' | 'sync' | 'async' | 'none'. -/
inductive Role
  | primary
  | sync
  | async
  | none
  deriving DecidableEq, BEq, Repr

/-- A peer identity: `{ pgUrl, backupUrl }`. -/
structure Peer where
  pgUrl : String
  backupUrl : String
  deriving DecidableEq, BEq, Repr

/-- A topology command (`pgConfig`) as passed to `reconfigure`. -/
structure PgConfig where
  role : Role
  upstream : Option Peer
  downstream : Option Peer
  deriving DecidableEq, BEq, Repr

/--
Manager instance state: the fields of the `PostgresMgr` object that the
claims depend on.  `postgres` is whether the child process handle
(`self._postgres`) exists.  `pgconfigLowercase` is the `self._pgconfig`
property read on line 909: no statement in the source ever assigns it, so
on every reachable state it is `none` (JavaScript `undefined`).
-/
structure MgrState where
  postgres : Bool
  running : Bool
  transitioning : Bool
  pgConfig : Option PgConfig
  pgconfigLowercase : Option PgConfig
  appliedPgConfig : Bool
  oneNodeWriteMode : Bool
  deriving DecidableEq, BEq, Repr

/--
`comparePeers` (lines 899-905): both absent compares equal; both present
compares the two identity fields.  (With exactly one side present the
JavaScript either returns false or throws; the only call site guards both
sides with the same truthiness test, and the branch is dead anyway, so we
return false.)
-/
def comparePeers : Option Peer → Option Peer → Bool
  | Option.none, Option.none => true
  | Option.some a, Option.some b => a.pgUrl == b.pgUrl && a.backupUrl == b.backupUrl
  | _, _ => false

/--
The guard on lines 909-913: `pgConfig && self._pgconfig && role equal &&
peers equal && self._appliedPgConfig`.  The second conjunct reads the
never-assigned `self._pgconfig` property (`pgconfigLowercase` here), not
`self._pgConfig`.
-/
def identicalAppliedGuard (s : MgrState) (cfgIn : Option PgConfig) : Bool :=
  match cfgIn, s.pgconfigLowercase, s.pgConfig with
  | Option.some c, Option.some _, Option.some cur =>
      c.role == cur.role
        && comparePeers c.upstream cur.upstream
        && comparePeers c.downstream cur.downstream
        && s.appliedPgConfig
  | _, _, _ => false

/--
What `_reconfigure` (lines 879-945) decides to do.  `typeError` marks a
JavaScript TypeError from reading a property of `null`/`undefined`
(e.g. `pgConfig.downstream.pgUrl` on line 926 when `downstream` is null).
-/
inductive RAction
  | callbackImmediate
  | onReconfigureNone
  | startPostgres
  | updateStandby (stdby : String)
  | primaryTransition (stdby : Option String)
  | standbyTransition (primUrl : String) (backupUrl : String)
  | typeError
  deriving DecidableEq, BEq, Repr

/--
The `_reconfigure` classification (lines 894-944), in source order:
role none; identical-and-applied (via `identicalAppliedGuard`); running
primary-to-primary standby update (line 923, which dereferences
`pgConfig.downstream.pgUrl` unconditionally on line 926); otherwise a
full primary or standby transition (falling back to the stored config
when called with none, i.e. from `start`).
-/
def reconfigureDispatch (s : MgrState) (cfgIn : Option PgConfig) : RAction :=
  if (match cfgIn with
      | Option.some c => c.role == Role.none
      | Option.none => false) then
    RAction.onReconfigureNone
  else if identicalAppliedGuard s cfgIn then
    (if s.postgres then RAction.callbackImmediate else RAction.startPostgres)
  else if s.postgres
      && (match s.pgConfig with
          | Option.some cur => cur.role == Role.primary
          | Option.none => false)
      && (match cfgIn with
          | Option.some c => c.role == Role.primary
          | Option.none => false) then
    (match cfgIn with
     | Option.some c =>
        (match c.downstream with
         | Option.some d => RAction.updateStandby d.pgUrl
         | Option.none => RAction.typeError)
     | Option.none => RAction.typeError)
  else
    (match (match cfgIn with
            | Option.some c => Option.some c
            | Option.none => s.pgConfig) with
     | Option.none => RAction.typeError
     | Option.some c =>
        if c.role == Role.primary then
          RAction.primaryTransition (c.downstream.map Peer.pgUrl)
        else
          (match c.upstream with
           | Option.some u => RAction.standbyTransition u.pgUrl u.backupUrl
           | Option.none => RAction.typeError))

/-- `postgresql.conf` key written by `_updateStandby` (line 145). -/
def SYNCHRONOUS_STANDBY_NAMES : String := "synchronous_standby_names"

/-- `postgresql.conf` key written by `_updateStandby` (line 143). -/
def READ_ONLY : String := "default_transaction_read_only"

/-- `formatStandbyName` (lines 178-180): wraps the name in double quotes
inside single quotes. -/
def formatStandbyName (name : String) : String :=
  "\x27\x22" ++ name ++ "\x22\x27"

/-- Observable effects of one `_updateStandby` run (lines 1108-1173). -/
structure UpdateStandbyEffects where
  confOpts : List (String × String)
  wroteConf : Bool
  warnedOneNode : Bool
  sighup : Bool
  startedCatchup : Bool
  restarted : Bool
  deriving DecidableEq, BEq, Repr

/--
`_updateStandby` (lines 1118-1158): computes `confOpts` (standby present:
synchronous standby name plus read-only on; absent and not one-node-write
mode: read-only on; one-node-write mode: nothing, with a warning), always
calls `_updatePgConf` (line 1144), then `_sighup`, then starts the
catch-up task iff a standby is named.  It never restarts the process.
-/
def updateStandbyEffects (oneNodeWriteMode : Bool) (stdby : Option String) :
    UpdateStandbyEffects :=
  match stdby with
  | Option.some st =>
      { confOpts := [(SYNCHRONOUS_STANDBY_NAMES, formatStandbyName st), (READ_ONLY, "on")]
        wroteConf := true
        warnedOneNode := false
        sighup := true
        startedCatchup := true
        restarted := false }
  | Option.none =>
      if !oneNodeWriteMode then
        { confOpts := [(READ_ONLY, "on")]
          wroteConf := true
          warnedOneNode := false
          sighup := true
          startedCatchup := false
          restarted := false }
      else
        { confOpts := []
          wroteConf := true
          warnedOneNode := true
          sighup := true
          startedCatchup := false
          restarted := false }

/--
The shape validation performed by the asserts at the top of `reconfigure`
(lines 748-767): primary has no upstream (and, in one-node-write mode, no
downstream); sync and async have an upstream and no downstream; none has
neither.
-/
def wellFormedPgConfig (oneNodeWriteMode : Bool) (c : PgConfig) : Bool :=
  match c.role with
  | Role.primary => c.upstream.isNone && (!oneNodeWriteMode || c.downstream.isNone)
  | Role.sync => c.upstream.isSome && c.downstream.isNone
  | Role.async => c.upstream.isSome && c.downstream.isNone
  | Role.none => c.upstream.isNone && c.downstream.isNone

/-! ## Entry-point gates (start / stop / reconfigure) -/

/-- The immediate errors the entry points return before doing any work. -/
inductive GateError
  | busy
  | alreadyRunning
  | notRunning
  | notConfigured
  | roleNone
  deriving DecidableEq, BEq, Repr

/--
The precondition checks of `start` (lines 612-628), in source order:
transitioning, already running, not configured, role none.
-/
def startGate (s : MgrState) : Option GateError :=
  if s.transitioning then Option.some GateError.busy
  else if s.running then Option.some GateError.alreadyRunning
  else
    match s.pgConfig with
    | Option.none => Option.some GateError.notConfigured
    | Option.some c =>
        if c.role == Role.none then Option.some GateError.roleNone
        else Option.none

/-- The precondition checks of `stop` (lines 653-659). -/
def stopGate (s : MgrState) : Option GateError :=
  if s.transitioning then Option.some GateError.busy
  else if !s.running then Option.some GateError.notRunning
  else Option.none

/-- Outcome of the synchronous part of a `reconfigure` call. -/
inductive ReconfigureOutcome
  | busy
  | okDeferred
  | proceed (a : RAction)
  deriving DecidableEq, BEq, Repr

/--
`reconfigure` (lines 770-789) after the shape asserts: if transitioning,
fail busy at once; if not running, store the topology, mark it not
applied, and succeed at once; otherwise set transitioning and run
`_reconfigure`.
-/
def reconfigureCall (s : MgrState) (c : PgConfig) : MgrState × ReconfigureOutcome :=
  if s.transitioning then (s, ReconfigureOutcome.busy)
  else if !s.running then
    ({ s with pgConfig := Option.some c, appliedPgConfig := false },
     ReconfigureOutcome.okDeferred)
  else
    ({ s with transitioning := true },
     ReconfigureOutcome.proceed (reconfigureDispatch s (Option.some c)))

/-! ## Concrete states and topologies used by the claims -/

/-- A downstream peer identity. -/
def peer7 : Peer :=
  { pgUrl := "tcp://postgres@10.77.77.7:5432/postgres"
    backupUrl := "http://10.77.77.7:12345" }

/-- A primary topology naming `peer7` as the downstream standby. -/
def primaryWithDownstream : PgConfig :=
  { role := Role.primary, upstream := Option.none, downstream := Option.some peer7 }

/-- A primary topology with no downstream standby. -/
def primaryNoDownstream : PgConfig :=
  { role := Role.primary, upstream := Option.none, downstream := Option.none }

/--
A manager that is running as primary with `primaryWithDownstream` fully
applied, process handle live, no transition in progress.  As on every
reachable state, `pgconfigLowercase` (`self._pgconfig`) is unassigned.
-/
def runningPrimaryState : MgrState :=
  { postgres := true
    running := true
    transitioning := false
    pgConfig := Option.some primaryWithDownstream
    pgconfigLowercase := Option.none
    appliedPgConfig := true
    oneNodeWriteMode := false }

/-- A freshly constructed manager: nothing running, nothing configured. -/
def idleState : MgrState :=
  { postgres := false
    running := false
    transitioning := false
    pgConfig := Option.none
    pgconfigLowercase := Option.none
    appliedPgConfig := false
    oneNodeWriteMode := false }

/-- `idleState` with the `transitioning` mutex held. -/
def busyState : MgrState :=
  { idleState with transitioning := true }

/-! ## Process stop: signal escalation (`_stop`, lines 1426-1483) -/

/-- The termination signals `_stop` can send, in escalation order. -/
inductive Sig
  | sigint
  | sigquit
  | sigkill
  deriving DecidableEq, BEq, Repr

/--
Time (in ms after the `_stop` call) at which each signal's guard runs:
SIGINT is sent synchronously; the SIGQUIT check is a timer at
`opsTimeout`; the SIGKILL check is a timer nested another `opsTimeout`
later.
-/
def sigTime (T : Nat) : Sig → Nat
  | Sig.sigint => 0
  | Sig.sigquit => T
  | Sig.sigkill => 2 * T

/--
Whether the process (exiting at time `e`, or never for `none`) has
already exited when an event at time `t` runs; this is the `successful`
flag set by the `exit` listener.
-/
def exitedBy (e : Option Nat) (t : Nat) : Bool :=
  match e with
  | Option.none => false
  | Option.some x => x ≤ t

/--
The signals `_stop` sends to a live process with opsTimeout `T` when the
process exits at time `e`: SIGINT unconditionally (line 1458), SIGQUIT at
`T` unless already exited (lines 1460-1464), SIGKILL at `2*T` unless
already exited (lines 1466-1470).
-/
def sentSignals (T : Nat) (e : Option Nat) : List Sig :=
  Sig.sigint ::
    ((if exitedBy e T then [] else [Sig.sigquit]) ++
     (if exitedBy e (2 * T) then [] else [Sig.sigkill]))

/-- The terminal outcome of `_stop` and the time (ms) it is reported. -/
inductive StopOutcome
  | success (t : Nat)
  | failure (t : Nat)
  deriving DecidableEq, BEq, Repr

/--
The final 'SIGKILL failed' check (lines 1472-1479) is scheduled by a
`setTimeout` with NO delay argument, which Node runs after the minimum
timer delay of 1 ms - not after another `opsTimeout`.
-/
def stopDeadline (T : Nat) : Nat := 2 * T + 1

/--
Outcome of `_stop` on a live process: if the exit event fires by the
final check at `stopDeadline T`, the (once-wrapped) callback succeeds at
the exit time; otherwise the 'SIGKILL failed' error is reported at the
final check.
-/
def stopResult (T : Nat) (e : Option Nat) : StopOutcome :=
  match e with
  | Option.some x =>
      if x ≤ stopDeadline T then StopOutcome.success x
      else StopOutcome.failure (stopDeadline T)
  | Option.none => StopOutcome.failure (stopDeadline T)

/-! ## Standby transition pipeline (`_standby`, lines 1279-1402) -/

/--
The outcome of each fallible collaborator step of the `_standby`
pipeline, injected as an environment (`none` = the step succeeds,
`some e` = the step fails with error `e`).
-/
structure StandbyEnv where
  stopErr : Option Nat
  assertErr : Option Nat
  updateCfg1Err : Option Nat
  restart1Err : Option Nat
  restoreErr : Option Nat
  rollback1Err : Option Nat
  updateCfg2Err : Option Nat
  restart2Err : Option Nat
  rollback2Err : Option Nat
  destroyErr : Option Nat
  deriving DecidableEq, BEq, Repr

/--
The `_standby` vasync pipeline (lines 1279-1402): stop, assert dataset,
then the in-place attempt whose failure (from the config update, else
from the first restart) is captured in `_.isRestore` rather than aborting
(lines 1305-1321); if a restore is needed: restore (on failure, roll back
- the `restoreDataset` callback on lines 1335-1338 DISCARDS the rollback
error and propagates the restore error), update configs again, restart
again (on failure, roll back - lines 1365-1368 likewise discard the
rollback error and propagate the restart error), then destroy the backup
snapshot.  Returns the error the pipeline's final callback receives.
-/
def standbyResult (env : StandbyEnv) : Option Nat :=
  match env.stopErr with
  | Option.some e => Option.some e
  | Option.none =>
    match env.assertErr with
    | Option.some e => Option.some e
    | Option.none =>
      match (match env.updateCfg1Err with
             | Option.some e => Option.some e
             | Option.none => env.restart1Err) with
      | Option.none => Option.none
      | Option.some _ =>
        match env.restoreErr with
        | Option.some e => Option.some e
        | Option.none =>
          match env.updateCfg2Err with
          | Option.some e => Option.some e
          | Option.none =>
            match env.restart2Err with
            | Option.some e => Option.some e
            | Option.none => env.destroyErr

/--
An environment where the in-place attempt fails (error 1), the restore
succeeds, the restart after restore fails (error 7), and the rollback to
the pre-restore snapshot also fails (error 9).
-/
def envRollbackFails : StandbyEnv :=
  { stopErr := Option.none
    assertErr := Option.none
    updateCfg1Err := Option.some 1
    restart1Err := Option.none
    restoreErr := Option.none
    rollback1Err := Option.none
    updateCfg2Err := Option.none
    restart2Err := Option.some 7
    rollback2Err := Option.some 9
    destroyErr := Option.none }

/-! ## Replication catch-up monitor (`_checkRepl` / `_checkReplStatus`) -/

/--
A log-sequence position as reported by postgres.  The external `pg-lsn`
module is modelled by its contract: `wellFormed` is what `xlogValidate`
checks, and `(seg, off)` is the magnitude that `xlogCompare` orders.
-/
structure Lsn where
  wellFormed : Bool
  seg : Nat
  off : Nat
  deriving DecidableEq, BEq, Repr

/-- `pg-lsn` `xlogValidate`: does the raw position parse as an LSN? -/
def xlogValidateOk (l : Lsn) : Bool := l.wellFormed

/-- `pg-lsn` `xlogCompare`: order-preserving comparison of positions. -/
def xlogCompare (a b : Lsn) : Int :=
  if a.seg > b.seg then 1
  else if a.seg < b.seg then -1
  else if a.off > b.off then 1
  else if a.off < b.off then -1
  else 0

/--
The fields of a `pg_stat_replication` row that `_checkReplStatus` reads:
`sync_state` (checked only for truthiness) and the two reported
positions (absent models a falsy field).
-/
structure ReplRow where
  hasSyncState : Bool
  sentLocation : Option Lsn
  flushLocation : Option Lsn
  deriving DecidableEq, BEq, Repr

/-- The error cases `_checkReplStatus` can produce (lines 2249-2282). -/
inductive ReplStatusErr
  | queryFailed
  | noReplStatus
  | lsnInvalid
  deriving DecidableEq, BEq, Repr

/--
`_checkReplStatus` (lines 2241-2315): wrap a query error; an empty row or
one missing `sync_state` / `sent_location` / `flush_location` is 'no
replication status'; then validate both locations with `xlogValidate`,
turning a malformed one into the 'failed to validate LSNs' error; finally
compare sent and flush, reporting caught-up (the `_stop` flag, `true`
here) only on an exact match, and passing the flush location back either
way.
-/
def checkReplStatus (res : Except Unit (Option ReplRow)) :
    Except ReplStatusErr (Bool × Lsn) :=
  match res with
  | Except.error _ => Except.error ReplStatusErr.queryFailed
  | Except.ok Option.none => Except.error ReplStatusErr.noReplStatus
  | Except.ok (Option.some r) =>
      match r.hasSyncState, r.sentLocation, r.flushLocation with
      | true, Option.some sent, Option.some flush =>
          if !(xlogValidateOk sent) || !(xlogValidateOk flush) then
            Except.error ReplStatusErr.lsnInvalid
          else if xlogCompare sent flush == 0 then
            Except.ok (true, flush)
          else
            Except.ok (false, flush)
      | _, _, _ => Except.error ReplStatusErr.noReplStatus

/--
The loop state of one `_checkRepl` task (lines 2153-2238): the
cooperative cancel flag, the last recorded replay (flush) location, and
`replStartTime`, the timestamp since the last observed progress.
-/
structure CheckReplState where
  cancel : Bool
  replReplayLoc : Option Lsn
  replStartTime : Nat
  deriving DecidableEq, BEq, Repr

/--
What one `checkReplication` callback invocation does next:
`silent` - the cancel flag was set, so return without scheduling or
emitting anything (line 2174); `scheduleRetry st` - `setTimeout` another
poll after the 1 s period with updated state; `emitDone` / `emitError` -
the terminal events.
-/
inductive CheckAction
  | silent
  | scheduleRetry (st : CheckReplState)
  | emitDone
  | emitError
  deriving DecidableEq, BEq, Repr

/--
The body of the `checkReplication` callback (lines 2173-2234), given the
replication timeout, the current time `now`, the loop state and the
result from `_checkReplStatus`.  On ANY error - including the
LSN-validation error - it resets `replStartTime` and schedules a retry
(lines 2177-2193, whose comment spells out that failed LSN validation is
retried).  Otherwise it records forward progress, emits done when caught
up, emits the 'standby unable to make forward progress' error when the
timeout budget is exceeded, and schedules a retry otherwise.
-/
def checkReplCallbackStep (replicationTimeout now : Nat) (st : CheckReplState)
    (res : Except ReplStatusErr (Bool × Lsn)) : CheckAction :=
  if st.cancel then CheckAction.silent
  else
    match res with
    | Except.error _ =>
        CheckAction.scheduleRetry { st with replStartTime := now }
    | Except.ok (stopFlag, replayLoc) =>
        let progressed :=
          match st.replReplayLoc with
          | Option.none => true
          | Option.some old => xlogCompare replayLoc old > 0
        let st2 :=
          if progressed then
            { st with replStartTime := now, replReplayLoc := Option.some replayLoc }
          else st
        if stopFlag then CheckAction.emitDone
        else if now - st2.replStartTime > replicationTimeout then CheckAction.emitError
        else CheckAction.scheduleRetry st2

/-- The events the `checkReplEmitter` can emit (the source emits only
'done' and 'error'; there is no 'cancelled' event). -/
inductive ReplEvent
  | done
  | error
  deriving DecidableEq, BEq, Repr

/--
The `cancel` function installed on the emitter (lines 2163-2170): set
the cancel flag, clear any pending poll timer, and immediately emit
'done' as the acknowledgement.
-/
def checkReplCancel (st : CheckReplState) : CheckReplState × ReplEvent :=
  ({ st with cancel := true }, ReplEvent.done)

/-- The event emitted when the standby is caught up (line 2213). -/
def checkReplCaughtUpEvent : ReplEvent := ReplEvent.done

/-- A replication-status row whose flush location fails LSN validation. -/
def malformedFlushRow : ReplRow :=
  { hasSyncState := true
    sentLocation := Option.some { wellFormed := true, seg := 0, off := 100 }
    flushLocation := Option.some { wellFormed := false, seg := 0, off := 0 } }

/-! ## Query serializer (`_pgQueryKick` / `_pgQueryFini` / `_queryDb`) -/

/--
Serializer state (constructor lines 353-354 plus instrumentation):
the FIFO `_pgRequestsQueued`, the single `_pgRequestOutstanding` slot,
whether `_pgClient` exists, the trace of completion callbacks fired (in
order, with their success flag), and the trace of dispatches (the order
requests were handed to the client).  Requests are identified by a
natural number.
-/
structure SerializerState where
  pgRequestsQueued : List Nat
  pgRequestOutstanding : Option Nat
  hasClient : Bool
  callbacksFired : List (Nat × Bool)
  dispatchOrder : List Nat
  deriving DecidableEq, BEq, Repr

/-- The serializer state of a freshly constructed manager. -/
def initSerializer : SerializerState :=
  { pgRequestsQueued := []
    pgRequestOutstanding := Option.none
    hasClient := false
    callbacksFired := []
    dispatchOrder := [] }

/--
`_pgQueryKick` (lines 1917-1979): if a request is already outstanding,
or none is queued, do nothing; otherwise shift the queue head into the
outstanding slot, lazily create the client if absent, and issue the
query (recorded in `dispatchOrder`).
-/
def pgQueryKick (s : SerializerState) : SerializerState :=
  match s.pgRequestOutstanding with
  | Option.some _ => s
  | Option.none =>
      match s.pgRequestsQueued with
      | [] => s
      | rq :: rest =>
          { s with
            pgRequestsQueued := rest
            pgRequestOutstanding := Option.some rq
            hasClient := true
            dispatchOrder := s.dispatchOrder ++ [rq] }

/--
`_pgQueryFini` (lines 1981-2007): take the outstanding request, fire its
callback with the given success flag, discard the client on error so the
next dispatch creates a fresh one, and kick the queue again.  (The
source asserts a request is outstanding; the none case is unreachable
from the event semantics below and left as the identity.)
-/
def pgQueryFini (success : Bool) (s : SerializerState) : SerializerState :=
  match s.pgRequestOutstanding with
  | Option.none => s
  | Option.some rq =>
      pgQueryKick
        { s with
          pgRequestOutstanding := Option.none
          hasClient := success && s.hasClient
          callbacksFired := s.callbacksFired ++ [(rq, success)] }

/-- `_queryDb` (lines 2009-2024): enqueue the request and kick. -/
def queryDb (rq : Nat) (s : SerializerState) : SerializerState :=
  pgQueryKick { s with pgRequestsQueued := s.pgRequestsQueued ++ [rq] }

/--
The external events that drive the serializer: a submission via
`_queryDb`; the query 'end' event for the outstanding query (success);
a query 'error' event carrying the request it was issued for (the
handler on lines 1961-1973 compares it against the outstanding request
and ignores it when they differ); a client-level 'error' event (the
handler on lines 1939-1948 completes the outstanding request if any,
else just discards the stale client).
-/
inductive PgEvent
  | submit (rq : Nat)
  | queryEnd
  | queryError (rq : Nat)
  | clientError
  deriving DecidableEq, BEq, Repr

/-- One serializer step per event, mirroring the source's handlers. -/
def pgStep (s : SerializerState) (e : PgEvent) : SerializerState :=
  match e with
  | PgEvent.submit rq => queryDb rq s
  | PgEvent.queryEnd => pgQueryFini true s
  | PgEvent.queryError rq =>
      if s.pgRequestOutstanding = Option.some rq then pgQueryFini false s else s
  | PgEvent.clientError =>
      match s.pgRequestOutstanding with
      | Option.some _ => pgQueryFini false s
      | Option.none => { s with hasClient := false }

/-- Run a trace of events from the initial serializer state. -/
def pgRun (tr : List PgEvent) : SerializerState :=
  tr.foldl pgStep initSerializer

/-- The requests submitted in a trace, in submission order. -/
def submittedIds (tr : List PgEvent) : List Nat :=
  tr.filterMap (fun e =>
    match e with
    | PgEvent.submit rq => Option.some rq
    | _ => Option.none)

/-- The requests whose callbacks have fired, in firing order. -/
def pgCallbackIds (s : SerializerState) : List Nat :=
  s.callbacksFired.map Prod.fst

/--
Every submitted request is in exactly one place: already called back (in
order), outstanding, or still queued (in order).
-/
def pgInventory (s : SerializerState) : List Nat :=
  pgCallbackIds s ++ s.pgRequestOutstanding.toList ++ s.pgRequestsQueued

/-- Does a trace use only submissions and successful completions? -/
def allSubmitOrEnd (tr : List PgEvent) : Bool :=
  tr.all (fun e =>
    match e with
    | PgEvent.submit _ => true
    | PgEvent.queryEnd => true
    | _ => false)

/-- The per-event ids added to the submission record. -/
def pgEventIds (e : PgEvent) : List Nat :=
  match e with
  | PgEvent.submit rq => [rq]
  | _ => []

/-- Dispatch invariant: the dispatch order is exactly the callbacks fired
so far followed by the currently outstanding request. -/
def dispatchInv (s : SerializerState) : Prop :=
  s.dispatchOrder = pgCallbackIds s ++ s.pgRequestOutstanding.toList

/-- A concrete error-free trace: two submissions, two completions. -/
def trTwoQueries : List PgEvent :=
  [PgEvent.submit 1, PgEvent.submit 2, PgEvent.queryEnd, PgEvent.queryEnd]

/-- A concrete trace where the same request sees both a client error and
a stale query 'error' event. -/
def trClientThenQueryError : List PgEvent :=
  [PgEvent.submit 5, PgEvent.clientError, PgEvent.queryError 5]

/-! ## Claim theorems and supporting lemmas -/

/--
C1: the claim says a reconfigure with a topology identical to the
fully-applied current one, while running with a live process handle, is a
no-op with no restart and no configuration rewrite.  The code contradicts
its own comment (lines 907-908): the guard on line 909 reads the
never-assigned `self._pgconfig` (always undefined), so the no-op branch
is dead, and an identical primary topology instead dispatches to
`_updateStandby`, which rewrites `postgresql.conf` and SIGHUPs.  This
theorem evaluates the dispatch at that failing input.
-/
theorem reconfigure_identical_applied_is_not_noop :
    reconfigureDispatch runningPrimaryState (Option.some primaryWithDownstream)
        = RAction.updateStandby peer7.pgUrl
      ∧ reconfigureDispatch runningPrimaryState (Option.some primaryWithDownstream)
        ≠ RAction.callbackImmediate
      ∧ (updateStandbyEffects false (Option.some peer7.pgUrl)).wroteConf = true := by
  refine ⟨rfl, ?_, rfl⟩
  decide

/--
C5: a reconfigure, start, or stop issued while `transitioning` is true
fails immediately with the busy ('already transitioning') error; the
state is returned unchanged (nothing is queued, nothing blocks).
-/
theorem transitioning_rejects_busy (s : MgrState) (c : PgConfig)
    (h : s.transitioning = true) :
    startGate s = Option.some GateError.busy
      ∧ stopGate s = Option.some GateError.busy
      ∧ reconfigureCall s c = (s, ReconfigureOutcome.busy) := by
  refine ⟨?_, ?_, ?_⟩ <;> simp [startGate, stopGate, reconfigureCall, h]

/-- C5 witness: the busy rejection at a concrete transitioning state. -/
theorem transitioning_rejects_busy_witness :
    busyState.transitioning = true
      ∧ (startGate busyState = Option.some GateError.busy
          ∧ stopGate busyState = Option.some GateError.busy
          ∧ reconfigureCall busyState primaryWithDownstream
              = (busyState, ReconfigureOutcome.busy)) :=
  ⟨rfl, transitioning_rejects_busy busyState primaryWithDownstream rfl⟩

/--
C8: the claim says a running primary reconfigured to primary performs the
standby-only update, including the no-standby arms (read-only on, or
one-node-write mode with a warning).  In the code those arms are
unreachable: line 926 reads `pgConfig.downstream.pgUrl` unconditionally,
so a well-formed primary topology with no downstream makes `_reconfigure`
throw a TypeError before any update, even though `_updateStandby` itself
(lines 1129-1142) implements the null-standby branches.  This theorem
evaluates the dispatch at that failing input (and checks the input passes
the entry validation).
-/
theorem reconfigure_primary_drop_standby_type_error :
    wellFormedPgConfig false primaryNoDownstream = true
      ∧ reconfigureDispatch runningPrimaryState (Option.some primaryNoDownstream)
          = RAction.typeError := by
  exact ⟨rfl, rfl⟩

/--
C9: a reconfigure with a well-formed topology while not running and not
transitioning stores the topology, marks it not yet applied, and succeeds
immediately; the process-handle field is untouched (no process
interaction); and the busy outcome occurs only when transitioning.
-/
theorem reconfigure_not_running_defers (s : MgrState) (c : PgConfig)
    (hw : wellFormedPgConfig s.oneNodeWriteMode c = true) :
    (s.transitioning = false → s.running = false →
        reconfigureCall s c
          = ({ s with pgConfig := Option.some c, appliedPgConfig := false },
             ReconfigureOutcome.okDeferred))
      ∧ ((reconfigureCall s c).2 = ReconfigureOutcome.busy → s.transitioning = true) := by
  constructor
  · intro ht hr
    simp [reconfigureCall, ht, hr]
  · intro hb
    by_contra hc
    have ht : s.transitioning = false := by
      cases h : s.transitioning
      · rfl
      · exact absurd h hc
    by_cases hr : s.running
    · simp [reconfigureCall, ht, hr] at hb
    · simp [reconfigureCall, ht, hr] at hb

/-- C9 witness: the deferred-store behaviour at a concrete idle state. -/
theorem reconfigure_not_running_defers_witness :
    wellFormedPgConfig idleState.oneNodeWriteMode primaryWithDownstream = true
      ∧ (idleState.transitioning = false → idleState.running = false →
            reconfigureCall idleState primaryWithDownstream
              = ({ idleState with
                    pgConfig := Option.some primaryWithDownstream
                    appliedPgConfig := false },
                 ReconfigureOutcome.okDeferred))
      ∧ ((reconfigureCall idleState primaryWithDownstream).2 = ReconfigureOutcome.busy →
            idleState.transitioning = true) := by
  refine ⟨rfl, ?_, ?_⟩
  · exact (reconfigure_not_running_defers idleState primaryWithDownstream rfl).1
  · exact (reconfigure_not_running_defers idleState primaryWithDownstream rfl).2

/--
C3 counterexample: the claim says the shutdown-failed error is reported
only if the process has still not exited one full `opsTimeout` after
SIGKILL (i.e. by `3*T`).  With `opsTimeout = 1000` and the process
exiting at 2500 ms - well before `3*T = 3000` - the code still reports
failure, at 2001 ms, because the final check is scheduled with no delay
(line 1472), not with another `opsTimeout`.
-/
theorem stop_fails_before_full_interval_after_sigkill :
    stopResult 1000 (Option.some 2500) = StopOutcome.failure 2001
      ∧ exitedBy (Option.some 2500) (3 * 1000) = true := by
  exact ⟨rfl, rfl⟩

/--
C3 amended: for every stop of a live process, at most three signals are
sent, in escalating severity with `opsTimeout` between consecutive
checks (SIGQUIT sent at `T` iff not yet exited, SIGKILL at `2*T` iff not
yet exited), and the shutdown-failed error is reported iff the process
has still not exited at the final check, which runs one minimal timer
tick (not one `opsTimeout`) after SIGKILL; if the process exits by then,
stop succeeds at the exit time, sending no signal whose check the exit
precedes.
-/
theorem stop_escalation_characterization (T : Nat) (e : Option Nat) :
    (sentSignals T e = [Sig.sigint]
        ∨ sentSignals T e = [Sig.sigint, Sig.sigquit]
        ∨ sentSignals T e = [Sig.sigint, Sig.sigquit, Sig.sigkill])
      ∧ (Sig.sigquit ∈ sentSignals T e ↔ exitedBy e T = false)
      ∧ (Sig.sigkill ∈ sentSignals T e ↔ exitedBy e (2 * T) = false)
      ∧ (exitedBy e (stopDeadline T) = true →
            stopResult T e = StopOutcome.success (e.getD 0))
      ∧ (exitedBy e (stopDeadline T) = false →
            stopResult T e = StopOutcome.failure (stopDeadline T)) := by
  match e with
  | Option.none =>
      refine ⟨Or.inr (Or.inr ?_), ?_, ?_, ?_, ?_⟩ <;>
        simp [sentSignals, exitedBy, stopResult]
  | Option.some x =>
      by_cases h1 : x ≤ T
      · have h2 : x ≤ 2 * T := le_trans h1 (by omega)
        have h3 : x ≤ stopDeadline T := le_trans h2 (by simp [stopDeadline])
        refine ⟨Or.inl ?_, ?_, ?_, ?_, ?_⟩ <;>
          simp [sentSignals, exitedBy, stopResult, h1, h2, h3]
      · by_cases h2 : x ≤ 2 * T
        · have h3 : x ≤ stopDeadline T := le_trans h2 (by simp [stopDeadline])
          refine ⟨Or.inr (Or.inl ?_), ?_, ?_, ?_, ?_⟩ <;>
            simp [sentSignals, exitedBy, stopResult, h1, h2, h3]
        · by_cases h3 : x ≤ stopDeadline T
          · refine ⟨Or.inr (Or.inr ?_), ?_, ?_, ?_, ?_⟩ <;>
              simp [sentSignals, exitedBy, stopResult, h1, h2, h3]
          · refine ⟨Or.inr (Or.inr ?_), ?_, ?_, ?_, ?_⟩ <;>
              simp [sentSignals, exitedBy, stopResult, h1, h2, h3]

/--
C3 witness: a process that exits 500 ms after SIGINT with
`opsTimeout = 1000`: it has exited by the final check, and stop succeeds
at 500 ms.
-/
theorem stop_escalation_characterization_witness :
    exitedBy (Option.some 500) (stopDeadline 1000) = true
      ∧ stopResult 1000 (Option.some 500)
          = StopOutcome.success ((Option.some 500).getD 0) :=
  ⟨rfl, (stop_escalation_characterization 1000 (Option.some 500)).2.2.2.1 rfl⟩

/--
C6 counterexample: the claim says that when the rollback itself fails,
both errors are surfaced with the rollback failure taking precedence.
In the code the `restoreDataset` callbacks (lines 1335-1338 and
1365-1368) ignore their error argument entirely: with a failed
restart-after-restore (error 7) and a failed rollback (error 9), the
caller receives exactly the triggering error 7 - the rollback error is
discarded, not surfaced, and certainly does not take precedence.
-/
theorem standby_rollback_error_not_surfaced :
    standbyResult envRollbackFails = Option.some 7
      ∧ standbyResult envRollbackFails ≠ envRollbackFails.rollback2Err := by
  refine ⟨rfl, ?_⟩
  decide

/--
C6 amended: when a rollback to the pre-restore snapshot is attempted
(after a failed restore, or after a failed restart following a restore),
only the triggering error is surfaced to the caller; the result of the
`_standby` pipeline is independent of whether the rollbacks succeed or
fail, so a rollback failure is silently discarded.
-/
theorem standby_result_ignores_rollback_errors (env : StandbyEnv)
    (x y : Option Nat) :
    standbyResult { env with rollback1Err := x, rollback2Err := y }
      = standbyResult env := by
  cases env
  rfl

/--
C2 counterexample: the claim says a malformed reported position makes the
monitor emit its error outcome and schedule no further poll.  In the
code, `_checkReplStatus` turns the malformed position into an ordinary
callback error, and the `_checkRepl` error branch (lines 2177-2193)
treats every error - its comment explicitly includes failed LSN
validation - as retryable: here the step on a row with a malformed flush
location schedules another poll (with the progress clock reset to `now`)
instead of emitting the error outcome.
-/
theorem malformed_lsn_is_retried :
    checkReplStatus (Except.ok (Option.some malformedFlushRow))
        = Except.error ReplStatusErr.lsnInvalid
      ∧ checkReplCallbackStep 60000 5000
          { cancel := false, replReplayLoc := Option.none, replStartTime := 0 }
          (checkReplStatus (Except.ok (Option.some malformedFlushRow)))
        = CheckAction.scheduleRetry
            { cancel := false, replReplayLoc := Option.none, replStartTime := 5000 }
      ∧ checkReplCallbackStep 60000 5000
          { cancel := false, replReplayLoc := Option.none, replStartTime := 0 }
          (checkReplStatus (Except.ok (Option.some malformedFlushRow)))
        ≠ CheckAction.emitError := by
  refine ⟨rfl, rfl, ?_⟩
  decide

/--
C2 amended: a malformed log-sequence position in the replication-status
row is treated exactly like a failed status query: the monitor resets its
progress clock to the current time and schedules another poll after the
period; it never treats the malformed-position case as an immediate
unrecoverable error.
-/
theorem malformed_lsn_retry_general (replicationTimeout now : Nat)
    (st : CheckReplState) (row : ReplRow)
    (hc : st.cancel = false)
    (herr : checkReplStatus (Except.ok (Option.some row))
        = Except.error ReplStatusErr.lsnInvalid) :
    checkReplCallbackStep replicationTimeout now st
        (checkReplStatus (Except.ok (Option.some row)))
      = CheckAction.scheduleRetry { st with replStartTime := now } := by
  rw [herr]
  simp [checkReplCallbackStep, hc]

/-- C2 witness: the general retry behaviour at the concrete malformed row. -/
theorem malformed_lsn_retry_general_witness :
    ({ cancel := false, replReplayLoc := Option.none, replStartTime := 0
        : CheckReplState }).cancel = false
      ∧ checkReplStatus (Except.ok (Option.some malformedFlushRow))
          = Except.error ReplStatusErr.lsnInvalid
      ∧ checkReplCallbackStep 60000 5000
          { cancel := false, replReplayLoc := Option.none, replStartTime := 0 }
          (checkReplStatus (Except.ok (Option.some malformedFlushRow)))
        = CheckAction.scheduleRetry
            { cancel := false, replReplayLoc := Option.none, replStartTime := 5000 } :=
  ⟨rfl, rfl,
    malformed_lsn_retry_general 60000 5000
      { cancel := false, replReplayLoc := Option.none, replStartTime := 0 }
      malformedFlushRow rfl rfl⟩

/--
C7 counterexample: the claim says cancellation terminates the monitor
with a distinct terminal outcome 'cancelled', one of three outcomes.
The emitter in the source emits only 'done' and 'error' (the `ReplEvent`
type), and `cancel` (lines 2163-2170) emits 'done' - the very same event
emitted on successful catch-up - so the cancellation outcome is not
distinct and no third outcome exists.
-/
theorem cancel_emits_done_not_distinct :
    (checkReplCancel
        { cancel := false, replReplayLoc := Option.none, replStartTime := 0 }).2
      = checkReplCaughtUpEvent := by
  rfl

/--
C7 amended: after `cancel` is invoked before convergence, the monitor
schedules no further replication-status polls (a pending poll timer is
cleared, and an in-flight status callback returns silently), and the
cancellation is acknowledged by immediately emitting 'done' - the same
event as successful completion, not a distinct 'cancelled' outcome -
which the caller can await before starting a replacement task.
-/
theorem cancel_silences_monitor (replicationTimeout now : Nat)
    (st : CheckReplState) (res : Except ReplStatusErr (Bool × Lsn))
    (hc : st.cancel = true) :
    checkReplCallbackStep replicationTimeout now st res = CheckAction.silent
      ∧ (checkReplCancel st).2 = ReplEvent.done
      ∧ (checkReplCancel st).1.cancel = true := by
  refine ⟨?_, rfl, rfl⟩
  simp [checkReplCallbackStep, hc]

/-- C7 witness: the silenced loop at a concrete cancelled state. -/
theorem cancel_silences_monitor_witness :
    ({ cancel := true, replReplayLoc := Option.none, replStartTime := 0
        : CheckReplState }).cancel = true
      ∧ checkReplCallbackStep 60000 5000
          { cancel := true, replReplayLoc := Option.none, replStartTime := 0 }
          (Except.error ReplStatusErr.queryFailed)
        = CheckAction.silent
      ∧ (checkReplCancel
          { cancel := true, replReplayLoc := Option.none, replStartTime := 0 }).2
        = ReplEvent.done :=
  ⟨rfl,
    (cancel_silences_monitor 60000 5000
      { cancel := true, replReplayLoc := Option.none, replStartTime := 0 }
      (Except.error ReplStatusErr.queryFailed) rfl).1,
    (cancel_silences_monitor 60000 5000
      { cancel := true, replReplayLoc := Option.none, replStartTime := 0 }
      (Except.error ReplStatusErr.queryFailed) rfl).2.1⟩

theorem pgQueryKick_inventory (s : SerializerState) :
    pgInventory (pgQueryKick s) = pgInventory s := by
  unfold pgQueryKick pgInventory pgCallbackIds
  cases houtst : s.pgRequestOutstanding with
  | some rq => simp [houtst]
  | none =>
      cases hq : s.pgRequestsQueued with
      | nil => simp [houtst, hq]
      | cons rq rest => simp [houtst, hq]

theorem pgQueryKick_callbacks (s : SerializerState) :
    (pgQueryKick s).callbacksFired = s.callbacksFired := by
  unfold pgQueryKick
  cases s.pgRequestOutstanding with
  | some rq => rfl
  | none =>
      cases s.pgRequestsQueued with
      | nil => rfl
      | cons rq rest => rfl

theorem pgQueryFini_inventory (success : Bool) (s : SerializerState) :
    pgInventory (pgQueryFini success s) = pgInventory s := by
  unfold pgQueryFini
  cases houtst : s.pgRequestOutstanding with
  | none => rfl
  | some rq =>
      rw [pgQueryKick_inventory]
      unfold pgInventory pgCallbackIds
      simp [houtst]

theorem queryDb_inventory (rq : Nat) (s : SerializerState) :
    pgInventory (queryDb rq s) = pgInventory s ++ [rq] := by
  unfold queryDb
  rw [pgQueryKick_inventory]
  unfold pgInventory pgCallbackIds
  simp

theorem pgStep_inventory (s : SerializerState) (e : PgEvent) :
    pgInventory (pgStep s e) = pgInventory s ++ pgEventIds e := by
  cases e with
  | submit rq => simpa [pgStep, pgEventIds] using queryDb_inventory rq s
  | queryEnd => simpa [pgStep, pgEventIds] using pgQueryFini_inventory true s
  | queryError rq =>
      by_cases h : s.pgRequestOutstanding = Option.some rq
      · simpa [pgStep, pgEventIds, h] using pgQueryFini_inventory false s
      · simp [pgStep, pgEventIds, h]
  | clientError =>
      cases houtst : s.pgRequestOutstanding with
      | some rq =>
          have := pgQueryFini_inventory false s
          simp [pgStep, pgEventIds, houtst, this]
      | none => simp [pgStep, pgEventIds, houtst, pgInventory, pgCallbackIds]

theorem pgRun_aux_inventory (tr : List PgEvent) (s : SerializerState) :
    pgInventory (tr.foldl pgStep s) = pgInventory s ++ submittedIds tr := by
  induction tr generalizing s with
  | nil => simp [submittedIds]
  | cons e tr ih =>
      have hstep := pgStep_inventory s e
      have hsub : submittedIds (e :: tr) = pgEventIds e ++ submittedIds tr := by
        cases e <;> simp [submittedIds, pgEventIds]
      simp only [List.foldl_cons, hsub]
      rw [ih (pgStep s e), hstep, List.append_assoc]

/-- Partition invariant: callbacks fired, the outstanding slot and the
queue together list exactly the submitted requests, in order. -/
theorem pgRun_inventory (tr : List PgEvent) :
    pgInventory (pgRun tr) = submittedIds tr := by
  have := pgRun_aux_inventory tr initSerializer
  simpa [pgRun, pgInventory, pgCallbackIds, initSerializer] using this

theorem pgQueryKick_dispatchInv (s : SerializerState) (h : dispatchInv s) :
    dispatchInv (pgQueryKick s) := by
  unfold pgQueryKick
  cases houtst : s.pgRequestOutstanding with
  | some rq => simpa [houtst] using h
  | none =>
      cases hq : s.pgRequestsQueued with
      | nil => simpa [houtst] using h
      | cons rq rest =>
          unfold dispatchInv pgCallbackIds at h ⊢
          simp [houtst] at h
          simp [h]

theorem pgQueryFini_dispatchInv (success : Bool) (s : SerializerState)
    (h : dispatchInv s) : dispatchInv (pgQueryFini success s) := by
  unfold pgQueryFini
  cases houtst : s.pgRequestOutstanding with
  | none => simpa using h
  | some rq =>
      apply pgQueryKick_dispatchInv
      unfold dispatchInv pgCallbackIds at h ⊢
      simp [houtst] at h
      simp [h]

theorem pgStep_dispatchInv (s : SerializerState) (e : PgEvent)
    (h : dispatchInv s) : dispatchInv (pgStep s e) := by
  cases e with
  | submit rq =>
      unfold pgStep queryDb
      apply pgQueryKick_dispatchInv
      unfold dispatchInv pgCallbackIds at h ⊢
      simpa using h
  | queryEnd => exact pgQueryFini_dispatchInv true s h
  | queryError rq =>
      by_cases hc : s.pgRequestOutstanding = Option.some rq
      · simpa [pgStep, hc] using pgQueryFini_dispatchInv false s h
      · simpa [pgStep, hc] using h
  | clientError =>
      cases houtst : s.pgRequestOutstanding with
      | some rq =>
          have := pgQueryFini_dispatchInv false s h
          simpa [pgStep, houtst] using this
      | none =>
          unfold dispatchInv pgCallbackIds at h ⊢
          simpa [pgStep, houtst] using h

theorem pgRun_aux_dispatchInv (tr : List PgEvent) (s : SerializerState)
    (h : dispatchInv s) : dispatchInv (tr.foldl pgStep s) := by
  induction tr generalizing s with
  | nil => simpa using h
  | cons e tr ih => exact ih (pgStep s e) (pgStep_dispatchInv s e h)

theorem pgRun_dispatchInv (tr : List PgEvent) : dispatchInv (pgRun tr) := by
  apply pgRun_aux_dispatchInv
  unfold dispatchInv pgCallbackIds initSerializer
  simp

/-- Success invariant: on error-free traces every callback fired with
success. -/
theorem pgRun_aux_success (tr : List PgEvent) (s : SerializerState)
    (htr : allSubmitOrEnd tr = true)
    (h : s.callbacksFired.all Prod.snd = true) :
    ((tr.foldl pgStep s).callbacksFired.all Prod.snd) = true := by
  induction tr generalizing s with
  | nil => simpa using h
  | cons e tr ih =>
      have htr2 : allSubmitOrEnd tr = true := by
        unfold allSubmitOrEnd at htr ⊢
        rw [List.all_cons, Bool.and_eq_true] at htr
        exact htr.2
      apply ih (pgStep s e) htr2
      cases e with
      | submit rq =>
          unfold pgStep queryDb
          rw [pgQueryKick_callbacks]
          simpa using h
      | queryEnd =>
          unfold pgStep pgQueryFini
          cases houtst : s.pgRequestOutstanding with
          | none => simpa using h
          | some rq =>
              rw [pgQueryKick_callbacks]
              simp [h]
      | queryError rq =>
          unfold allSubmitOrEnd at htr
          simp [List.all_cons] at htr
      | clientError =>
          unfold allSubmitOrEnd at htr
          simp [List.all_cons] at htr

/--
C4: across every sequence of submissions and completions in which the
underlying client always succeeds, the serializer (i) keeps every
submitted request in exactly one place - called back, outstanding, or
queued - in strict FIFO submission order, (ii) dispatches requests to the
client in submission order (the dispatch order followed by the still
queued requests is the submission order), (iii) never has more than one
query in flight (the number of dispatches never exceeds the number of
completed callbacks by more than one - this holds of every trace, hence
of every prefix of a trace), (iv) fires only success callbacks, and (v)
once drained has fired all callbacks exactly once, in submission order.
-/
theorem pg_serializer_fifo (tr : List PgEvent) (h : allSubmitOrEnd tr = true) :
    pgInventory (pgRun tr) = submittedIds tr
      ∧ (pgRun tr).dispatchOrder ++ (pgRun tr).pgRequestsQueued = submittedIds tr
      ∧ (pgRun tr).dispatchOrder.length ≤ (pgRun tr).callbacksFired.length + 1
      ∧ (pgRun tr).callbacksFired.all Prod.snd = true
      ∧ ((pgRun tr).pgRequestOutstanding = Option.none →
            (pgRun tr).pgRequestsQueued = [] →
            pgCallbackIds (pgRun tr) = submittedIds tr) := by
  refine ⟨pgRun_inventory tr, ?_, ?_, ?_, ?_⟩
  · have hd := pgRun_dispatchInv tr
    unfold dispatchInv at hd
    have hinv := pgRun_inventory tr
    unfold pgInventory at hinv
    rw [hd]
    exact hinv
  · have hd := pgRun_dispatchInv tr
    unfold dispatchInv at hd
    rw [hd, List.length_append]
    unfold pgCallbackIds
    rw [List.length_map]
    have hlen : (pgRun tr).pgRequestOutstanding.toList.length ≤ 1 := by
      cases (pgRun tr).pgRequestOutstanding <;> simp
    omega
  · have := pgRun_aux_success tr initSerializer h (by rfl)
    simpa [pgRun] using this
  · intro h1 h2
    have hinv := pgRun_inventory tr
    unfold pgInventory at hinv
    rw [h1, h2] at hinv
    simpa using hinv

/--
C4 witness: on the concrete drained trace both callbacks fire, in
submission order.
-/
theorem pg_serializer_fifo_witness :
    allSubmitOrEnd trTwoQueries = true
      ∧ pgCallbackIds (pgRun trTwoQueries) = submittedIds trTwoQueries :=
  ⟨rfl, (pg_serializer_fifo trTwoQueries rfl).2.2.2.2 rfl rfl⟩

/--
C10: in every event trace - including client-level errors and query
'error' events - each request submitted with a fresh identifier has its
completion callback invoked at most once.  In particular, once a client
error has completed the outstanding request, a later query 'error' event
for that no-longer-outstanding request is ignored by the guard on line
1967 rather than completing it a second time.
-/
theorem pg_callback_at_most_once (tr : List PgEvent) (rq : Nat)
    (h : (submittedIds tr).Nodup) :
    (pgCallbackIds (pgRun tr)).count rq ≤ 1 := by
  have hinv := pgRun_inventory tr
  unfold pgInventory at hinv
  have hcount : (submittedIds tr).count rq
      = ((pgCallbackIds (pgRun tr)).count rq
          + (pgRun tr).pgRequestOutstanding.toList.count rq)
        + (pgRun tr).pgRequestsQueued.count rq := by
    rw [← hinv, List.count_append, List.count_append]
  have h1 : (submittedIds tr).count rq ≤ 1 :=
    List.nodup_iff_count_le_one.mp h rq
  omega

/--
C10 witness: request 5 is completed once by the client error; the
subsequent query 'error' event for it is ignored.
-/
theorem pg_callback_at_most_once_witness :
    (submittedIds trClientThenQueryError).Nodup
      ∧ (pgCallbackIds (pgRun trClientThenQueryError)).count 5 ≤ 1 :=
  ⟨by decide, pg_callback_at_most_once trClientThenQueryError 5 (by decide)⟩
